import Mathlib

/-!
Shallow embedding of FumoRfetch (`src/main.rs`), a small fetch-style system
information tool. External effects (file reads, environment variables,
spawned commands) are modelled by an explicit `Env` record of `Option String`
inputs, where `none` models a failed read / unset variable / non-invocable
command. Rust `panic!` and arithmetic-overflow panics (the checked semantics
of debug builds) are modelled by `Except String`; so is the
`Duration::from_secs_f64` panic on negative, non-finite or overflowing
parsed uptime seconds, carried by the abstract parse outcome. Machine
integers are `Nat`;
`u64` parsing rejects values `≥ 2^64` exactly as `str::parse::<u64>` does.
The two `f64` computations are modelled exactly: dividing a kibibyte count by
1024 or 1024² is exact in binary floating point for all realistic sizes, and
Rust's `{:.2}` formatting rounds the exact value to hundredths with ties to
even.
-/

namespace FumoRfetch

/-- Rust `str::split_whitespace` accumulator: builds the list of maximal
non-whitespace runs, discarding empty tokens. -/
def splitWhitespaceAux : List Char → List Char → List String
  | [], cur => if cur.isEmpty then [] else [String.mk cur.reverse]
  | c :: cs, cur =>
    if c.isWhitespace then
      if cur.isEmpty then splitWhitespaceAux cs []
      else String.mk cur.reverse :: splitWhitespaceAux cs []
    else splitWhitespaceAux cs (c :: cur)

/-- Model of Rust `str::split_whitespace` (as a materialised list). -/
def splitWhitespace (s : String) : List String :=
  splitWhitespaceAux s.data []

/-- Model of Rust `str::parse::<u64>`: optional leading `+`, at least one
ASCII digit, value below `2^64`. -/
def parseU64 (s : String) : Option Nat :=
  let ds := match s.data with
    | '+' :: rest => rest
    | cs => cs
  if ds.isEmpty then none
  else if ds.all Char.isDigit then
    let v := ds.foldl (fun a c => a * 10 + (c.toNat - 48)) 0
    if v < 2 ^ 64 then some v else none
  else none

/-- Split a character list at every `\n` (the accumulator holds the current
piece reversed); always returns at least one piece. -/
def splitNL : List Char → List Char → List (List Char)
  | [], cur => [cur.reverse]
  | c :: cs, cur =>
    if c = '\n' then cur.reverse :: splitNL cs [] else splitNL cs (c :: cur)

/-- Strip one trailing carriage return, as Rust `str::lines` does per line. -/
def stripTrailingCR (cs : List Char) : List Char :=
  if cs.getLast? = some '\r' then cs.dropLast else cs

/-- Model of Rust `str::lines`: split on `\n`, drop the final empty piece
produced by a trailing newline, strip a trailing `\r` from each line; the
empty string has no lines. -/
def rustLines (s : String) : List String :=
  match s.data with
  | [] => []
  | cs =>
    let parts := splitNL cs []
    let parts := if cs.getLast? = some '\n' then parts.dropLast else parts
    parts.map (fun l => String.mk (stripTrailingCR l))

/-- Model of Rust `.lines().count()`. -/
def rustLinesCount (s : String) : Nat :=
  (rustLines s).length

/-- Model of Rust `str::starts_with` on a literal pattern. -/
def strStartsWith (s pat : String) : Bool :=
  pat.data.isPrefixOf s.data

/-- Model of Rust `str::trim_matches('"')`: strip all leading and trailing
double-quote characters. -/
def trimQuotes (s : String) : String :=
  String.mk (((s.data.dropWhile (· = '"')).reverse.dropWhile (· = '"')).reverse)

/-- Model of Rust `str::trim`: strip leading and trailing whitespace. -/
def trimStr (s : String) : String :=
  String.mk (((s.data.dropWhile Char.isWhitespace).reverse.dropWhile
    Char.isWhitespace).reverse)

/-- Model of `format_uptime` (src/main.rs:86-99); `total_secs` is the whole
second count of the `Duration` (`Duration::as_secs` truncates). -/
def format_uptime (total_secs : Nat) : String :=
  let days := total_secs / 86400
  let hours := (total_secs % 86400) / 3600
  let mins := (total_secs % 3600) / 60
  if days > 0 then
    toString days ++ "d " ++ toString hours ++ "h " ++ toString mins ++ "m"
  else if hours > 0 then
    toString hours ++ "h " ++ toString mins ++ "m"
  else
    toString mins ++ "m"

/-- Model of `get_uptime` (src/main.rs:75-84). `content` is `/proc/uptime`
(`none` when unreadable); `parseSecs` abstracts `f64` parsing composed with
`Duration::from_secs_f64` and `Duration::as_secs` (truncation to whole
non-negative seconds), returning `none` on parse failure. -/
def get_uptime (content : Option String) (parseSecs : String → Option Nat) :
    String :=
  match content with
  | some uptimeStr =>
    match (splitWhitespace uptimeStr).head? with
    | some secsStr =>
      match parseSecs secsStr with
      | some secs => format_uptime secs
      | none => "Unknown"
    | none => "Unknown"
  | none => "Unknown"

/-- Model of `get_uptime` (src/main.rs:75-84) at the run level, where the
`Duration::from_secs_f64(secs)` call can `panic!` (it does, in every build
profile, when the parsed `f64` is negative, non-finite, or overflows
`Duration`, e.g. `/proc/uptime` reading `-1 0` or `inf 0`). `parseSecsF`
abstracts `parse::<f64>` composed with `Duration::from_secs_f64` and
`as_secs`: `none` is an `f64` parse failure (the probe falls through to
`"Unknown"`), `some (.error m)` a panicking `Duration` construction,
`some (.ok secs)` the truncated whole-second count. -/
def get_uptime_checked (content : Option String)
    (parseSecsF : String → Option (Except String Nat)) :
    Except String String :=
  match content with
  | some uptimeStr =>
    match (splitWhitespace uptimeStr).head? with
    | some secsStr =>
      match parseSecsF secsStr with
      | some (.ok secs) => .ok (format_uptime secs)
      | some (.error e) => .error e
      | none => .ok "Unknown"
    | none => .ok "Unknown"
  | none => .ok "Unknown"

/-- One step of the `get_memory_info` line loop (src/main.rs:158-174): the
accumulator holds the `total` and `available` kibibyte counts, each
overwritten by every line whose prefix matches and whose second
whitespace-delimited token parses as `u64`. -/
def memLineStep (acc : Nat × Nat) (line : String) : Nat × Nat :=
  if strStartsWith line "MemTotal:" then
    match (splitWhitespace line)[1]? with
    | some value =>
      match parseU64 value with
      | some kbytes => (kbytes, acc.2)
      | none => acc
    | none => acc
  else if strStartsWith line "MemAvailable:" then
    match (splitWhitespace line)[1]? with
    | some value =>
      match parseU64 value with
      | some kbytes => (acc.1, kbytes)
      | none => acc
    | none => acc
  else acc

/-- The `(total, available)` accumulator pair after the whole loop of
`get_memory_info`, starting from `(0, 0)`; an unreadable file leaves both
at 0. -/
def memAccum (content : Option String) : Nat × Nat :=
  match content with
  | some meminfo => (rustLines meminfo).foldl memLineStep (0, 0)
  | none => (0, 0)

/-- The parsed kibibyte value a single line contributes to the accumulator
for prefix `pfx` (`none` when the line does not match or does not parse). -/
def memLineVal (pfx : String) (line : String) : Option Nat :=
  if strStartsWith line pfx then
    match (splitWhitespace line)[1]? with
    | some value => parseU64 value
    | none => none
  else none

/-- The last successfully parsed kibibyte value among the lines matching
`pfx`: the value that field's accumulator ends with, when any line parsed. -/
def memFieldLast (pfx : String) : List String → Option Nat
  | [] => none
  | line :: rest =>
    match memFieldLast pfx rest with
    | some v => some v
    | none => memLineVal pfx line

/-- Round `num / den` to the nearest integer, ties to even: the rounding
Rust's `{:.2}` float formatting applies to the (here exact) value. -/
def roundHalfEven (num den : Nat) : Nat :=
  let q := num / den
  let r := num % den
  if den < 2 * r then q + 1
  else if 2 * r < den then q
  else if q % 2 = 0 then q else q + 1

/-- Format the exact rational `num / den` with two fixed decimals followed by
a unit, as Rust `format!("{:.2} {}", x, unit)` renders it. -/
def fmtTwoDec (num den : Nat) (unit : String) : String :=
  let h := roundHalfEven (num * 100) den
  toString (h / 100) ++ "." ++ (if h % 100 < 10 then "0" else "") ++
    toString (h % 100) ++ " " ++ unit

/-- Model of `format_memory_size` (src/main.rs:184-193): `size_kb / 1024`
mebibytes and, if that exceeds 1024, gibibytes. The `f64` divisions by
powers of two are exact, so `size_mb > 1024.0` is exactly
`size_kb > 1024 * 1024`. -/
def format_memory_size (size_kb : Nat) : String :=
  if 1024 * 1024 < size_kb then fmtTwoDec size_kb (1024 * 1024) "GB"
  else fmtTwoDec size_kb 1024 "MB"

/-- Model of `get_memory_info` (src/main.rs:154-182). The subtraction
`used = total - available` is `u64` arithmetic: with overflow checks (Rust
debug builds) an underflow panics, modelled as `Except.error`; release
builds would instead wrap modulo `2^64`. -/
def get_memory_info (content : Option String) :
    Except String (String × String) :=
  let total := (memAccum content).1
  let available := (memAccum content).2
  if available ≤ total then
    .ok (format_memory_size (total - available), format_memory_size total)
  else .error "attempt to subtract with overflow"

/-- State machine of `visible_length` (src/main.rs:417-438): the `Bool` is the
`in_escape` flag; inside an escape everything up to and including the next
`m` is skipped, outside an `ESC` enters escape mode and any other character
counts 1. -/
def visibleAux : List Char → Bool → Nat
  | [], _ => 0
  | c :: cs, true => if c = 'm' then visibleAux cs false else visibleAux cs true
  | c :: cs, false =>
    if c = '\x1b' then visibleAux cs true else visibleAux cs false + 1

/-- Model of `visible_length` (src/main.rs:417-438). -/
def visible_length (s : String) : Nat :=
  visibleAux s.data false

mutual

/-- Written from the spec's words: remove every escape sequence, where a
sequence starts at the escape control character and ends at the next `m`,
both delimiters and everything strictly between them excluded; all other
characters are kept. -/
def specStripEsc : List Char → List Char
  | [] => []
  | c :: cs => if c = '\x1b' then specDropEsc cs else c :: specStripEsc cs

/-- Written from the spec's words: inside an escape sequence, discard up to
and including the terminating `m`. -/
def specDropEsc : List Char → List Char
  | [] => []
  | c :: cs => if c = 'm' then specStripEsc cs else specDropEsc cs

end

/-- Spec-side visible width: the number of characters left after removing
escape sequences; every remaining character has width 1. -/
def specVisibleWidth (s : String) : Nat :=
  (specStripEsc s.data).length

lemma visibleAux_eq_spec (cs : List Char) :
    visibleAux cs false = (specStripEsc cs).length ∧
      visibleAux cs true = (specDropEsc cs).length := by
  induction cs with
  | nil => exact ⟨rfl, rfl⟩
  | cons c cs ih =>
    constructor
    · by_cases h : c = '\x1b'
      · simp [visibleAux, specStripEsc, h, ih.2]
      · simp [visibleAux, specStripEsc, h, ih.1]
    · by_cases h : c = 'm'
      · simp [visibleAux, specDropEsc, h, ih.1]
      · simp [visibleAux, specDropEsc, h, ih.2]

/-- C5: the visible-width function counts exactly the characters outside
escape sequences (an escape sequence runs from the escape control character
through the next `m`, all of it excluded; every other character counts 1);
in particular `visible_length "\x1b[1;32mOS:\x1b[0m" = 3` and
`visible_length "plain" = 5`. -/
theorem C5_visible_width :
    (∀ s : String, visible_length s = specVisibleWidth s) ∧
      visible_length "\x1b[1;32mOS:\x1b[0m" = 3 ∧ visible_length "plain" = 5 :=
  ⟨fun s => (visibleAux_eq_spec s.data).1, by decide, by decide⟩

/-- Model of Rust ASCII `to_lowercase` (the lspci lines only need ASCII). -/
def toLowerStr (s : String) : String :=
  String.mk (s.data.map Char.toLower)

/-- First character index at which `pat` occurs in `cs` (Rust `str::find` on
a string pattern, at character granularity). -/
def findSubAux (pat : List Char) : List Char → Option Nat
  | [] => if pat.isEmpty then some 0 else none
  | c :: cs =>
    if pat.isPrefixOf (c :: cs) then some 0
    else (findSubAux pat cs).map (· + 1)

/-- Model of Rust `str::contains` on a string pattern. -/
def containsSubstr (s pat : String) : Bool :=
  (findSubAux pat.data s.data).isSome

/-- Split a character list at every occurrence of `sep`, keeping empty
pieces: Rust `str::split(sep)` materialised. -/
def splitOnCharAux (sep : Char) : List Char → List Char → List String
  | [], cur => [String.mk cur.reverse]
  | c :: cs, cur =>
    if c = sep then String.mk cur.reverse :: splitOnCharAux sep cs []
    else splitOnCharAux sep cs (c :: cur)

/-- Model of Rust `str::split(sep)` for a character separator. -/
def splitChar (s : String) (sep : Char) : List String :=
  splitOnCharAux sep s.data []

/-- Model of `get_hostname` (src/main.rs:46-51). -/
def get_hostname (etcHostname : Option String) : String :=
  trimStr (etcHostname.getD "Unknown")

/-- The first `PRETTY_NAME=` line of `/etc/os-release`, with the prefix
removed (`replacen(.., 1)` on a line that starts with the pattern removes
exactly that prefix) and surrounding double quotes trimmed. -/
def osFromLines : List String → Option String
  | [] => none
  | line :: rest =>
    if strStartsWith line "PRETTY_NAME=" then
      some (trimQuotes (String.mk (line.data.drop "PRETTY_NAME=".length)))
    else osFromLines rest

/-- Model of `get_os_info` (src/main.rs:53-64). -/
def get_os_info (osRelease : Option String) : String :=
  match osRelease with
  | some os_release =>
    match osFromLines (rustLines os_release) with
    | some name => name
    | none => "Linux"
  | none => "Linux"

/-- Model of `get_kernel_version` (src/main.rs:66-73): trimmed `uname -r`
output; a `panic!` when the command cannot be invoked. -/
def get_kernel_version (unameROut : Option String) : Except String String :=
  match unameROut with
  | some out => .ok (trimStr out)
  | none => .error "Failed to get kernel version"

/-- Model of `get_shell` (src/main.rs:101-108): last `/`-separated segment of
`$SHELL`, with `"Unknown"` fallbacks. -/
def get_shell (shellVar : Option String) : String :=
  ((splitChar (shellVar.getD "Unknown") '/').getLast?).getD "Unknown"

/-- Model of `get_terminal` (src/main.rs:110-112). -/
def get_terminal (termVar : Option String) : Option String :=
  termVar

/-- Model of `get_package_count` (src/main.rs:114-137): `dpkg`, then
`pacman`, then `rpm`; the first invocable command's stdout line count,
labelled; `"Unknown"` only when all three fail to invoke. -/
def get_package_count (dpkgOut pacmanOut rpmOut : Option String) : String :=
  match dpkgOut with
  | some output => toString (rustLinesCount output) ++ " (apt)"
  | none =>
    match pacmanOut with
    | some output => toString (rustLinesCount output) ++ " (pacman)"
    | none =>
      match rpmOut with
      | some output => toString (rustLinesCount output) ++ " (rpm)"
      | none => "Unknown"

/-- The first `model name` line's value in `/proc/cpuinfo`. -/
def cpuFromLines : List String → Option String
  | [] => none
  | line :: rest =>
    if strStartsWith line "model name" then
      some (trimStr (((splitChar line ':')[1]?).getD "Unknown"))
    else cpuFromLines rest

/-- Model of `get_cpu_info` (src/main.rs:139-152). -/
def get_cpu_info (procCpuinfo : Option String) : String :=
  match procCpuinfo with
  | some cpu_info =>
    match cpuFromLines (rustLines cpu_info) with
    | some name => name
    | none => "Unknown CPU"
  | none => "Unknown CPU"

/-- External inputs of one run: file contents, environment variables and
command stdout are `Option String` (`none` = unreadable / unset / not
invocable); the three `/sys/module` existence checks are `Bool`.
`parseSecs` abstracts the platform's `f64` parse composed with
`Duration::from_secs_f64` and `Duration::as_secs`: `none` a parse failure,
`some (.error m)` a panicking `Duration::from_secs_f64` (negative,
non-finite or overflowing seconds), `some (.ok n)` the truncated
whole-second count. -/
structure Env where
  etcHostname : Option String
  osRelease : Option String
  unameROut : Option String
  procUptime : Option String
  parseSecs : String → Option (Except String Nat)
  shellVar : Option String
  termVar : Option String
  dpkgOut : Option String
  pacmanOut : Option String
  rpmOut : Option String
  procCpuinfo : Option String
  lspciOut : Option String
  nvidiaSmiNameOut : Option String
  nvidiaSmiDriverOut : Option String
  lshwOut : Option String
  modinfoNvidiaOut : Option String
  modinfoAmdgpuOut : Option String
  modinfoRadeonOut : Option String
  modinfoI915Out : Option String
  glxinfoOut : Option String
  sysModuleAmdgpu : Bool
  sysModuleRadeon : Bool
  sysModuleI915 : Bool
  procMeminfo : Option String
  userVar : Option String
  usernameVar : Option String
  whoamiOut : Option String
  logoFile : Option String

/-- The first `version:` line's value in a `modinfo` output, trimmed
(src/main.rs:265-274 and the analogous amd/radeon/i915 loops). -/
def modinfoVersion : List String → Option String
  | [] => none
  | line :: rest =>
    if strStartsWith line "version:" then
      match (splitChar line ':')[1]? with
      | some version => some (trimStr version)
      | none => modinfoVersion rest
    else modinfoVersion rest

/-- The Mesa version from `glxinfo` output (src/main.rs:310-323): the tail of
the first line containing `Mesa`, from that occurrence on, trimmed (a line
from `.lines()` holds no `\n`, so the inner `find('\n')` never fires). -/
def mesaFromLines : List String → Option String
  | [] => none
  | line :: rest =>
    if containsSubstr line "Mesa" then
      match findSubAux "Mesa".data line.data with
      | some idx => some (trimStr (String.mk (line.data.drop idx)))
      | none => mesaFromLines rest
    else mesaFromLines rest

/-- Model of `get_nvidia_driver_version` (src/main.rs:255-277). -/
def get_nvidia_driver_version (nvidiaSmiDriverOut modinfoNvidiaOut :
    Option String) : String :=
  let fromSmi :=
    match nvidiaSmiDriverOut with
    | some out => if (trimStr out).data.isEmpty then none else some (trimStr out)
    | none => none
  match fromSmi with
  | some version => version
  | none =>
    match modinfoNvidiaOut with
    | some out => (modinfoVersion (rustLines out)).getD "Unknown"
    | none => "Unknown"

/-- Model of `get_amd_driver_version` (src/main.rs:279-326). -/
def get_amd_driver_version (sysModuleAmdgpu : Bool)
    (modinfoAmdgpuOut : Option String) (sysModuleRadeon : Bool)
    (modinfoRadeonOut : Option String) (glxinfoOut : Option String) : String :=
  let amdgpuV :=
    if sysModuleAmdgpu then
      match modinfoAmdgpuOut with
      | some out => (modinfoVersion (rustLines out)).map (fun v => "AMDGPU " ++ v)
      | none => none
    else none
  match amdgpuV with
  | some v => v
  | none =>
    let radeonV :=
      if sysModuleRadeon then
        match modinfoRadeonOut with
        | some out => (modinfoVersion (rustLines out)).map (fun v => "Radeon " ++ v)
        | none => none
      else none
    match radeonV with
    | some v => v
    | none =>
      match glxinfoOut with
      | some out => (mesaFromLines (rustLines out)).getD "Unknown"
      | none => "Unknown"

/-- Model of `get_intel_driver_version` (src/main.rs:328-360). -/
def get_intel_driver_version (sysModuleI915 : Bool)
    (modinfoI915Out glxinfoOut : Option String) : String :=
  let i915V :=
    if sysModuleI915 then
      match modinfoI915Out with
      | some out => (modinfoVersion (rustLines out)).map (fun v => "i915 " ++ v)
      | none => none
    else none
  match i915V with
  | some v => v
  | none =>
    match glxinfoOut with
    | some out => (mesaFromLines (rustLines out)).getD "Unknown"
    | none => "Unknown"

/-- The lspci scan of `get_gpu_info` (src/main.rs:199-228): first line whose
lowercase form mentions a graphics class and that has a third `:`-separated
field; vendor keywords in the lowered line choose the driver probe. -/
def gpuFromLspci (env : Env) : List String → Option (String × String)
  | [] => none
  | line :: rest =>
    let lineLower := toLowerStr line
    if containsSubstr lineLower "vga" || containsSubstr lineLower "display" ||
        containsSubstr lineLower "3d" || containsSubstr lineLower "graphics" then
      match (splitChar line ':')[2]? with
      | some gpuModel =>
        let gpuName := trimStr gpuModel
        let driverVersion :=
          if containsSubstr lineLower "nvidia" then
            get_nvidia_driver_version env.nvidiaSmiDriverOut env.modinfoNvidiaOut
          else if containsSubstr lineLower "amd" ||
              containsSubstr lineLower "radeon" ||
              containsSubstr lineLower "ati" then
            get_amd_driver_version env.sysModuleAmdgpu env.modinfoAmdgpuOut
              env.sysModuleRadeon env.modinfoRadeonOut env.glxinfoOut
          else if containsSubstr lineLower "intel" then
            get_intel_driver_version env.sysModuleI915 env.modinfoI915Out
              env.glxinfoOut
          else "Unknown"
        some (gpuName, driverVersion)
      | none => gpuFromLspci env rest
    else gpuFromLspci env rest

/-- The lshw fallback scan of `get_gpu_info` (src/main.rs:240-250). -/
def gpuFromLshw : List String → Option String
  | [] => none
  | line :: rest =>
    if containsSubstr line "product:" then
      match (splitChar line ':')[1]? with
      | some product => some (trimStr product)
      | none => gpuFromLshw rest
    else gpuFromLshw rest

/-- Model of `get_gpu_info` (src/main.rs:195-253): lspci scan, then
`nvidia-smi` (on non-empty stdout), then `lshw`, else the Unknown pair. -/
def get_gpu_info (env : Env) : String × String :=
  let fromLspci :=
    match env.lspciOut with
    | some output => gpuFromLspci env (rustLines output)
    | none => none
  match fromLspci with
  | some pair => pair
  | none =>
    let fromSmi :=
      match env.nvidiaSmiNameOut with
      | some output =>
        if output.data.isEmpty then none
        else some (trimStr output,
          get_nvidia_driver_version env.nvidiaSmiDriverOut env.modinfoNvidiaOut)
      | none => none
    match fromSmi with
    | some pair => pair
    | none =>
      let fromLshw :=
        match env.lshwOut with
        | some output => (gpuFromLshw (rustLines output)).map (fun name =>
            (name, get_amd_driver_version env.sysModuleAmdgpu
              env.modinfoAmdgpuOut env.sysModuleRadeon env.modinfoRadeonOut
              env.glxinfoOut))
        | none => none
      match fromLshw with
      | some pair => pair
      | none => ("Unknown GPU", "Unknown")

/-- Model of `whoami` (src/main.rs:440-453): `USER`, then `USERNAME`, then
the trimmed output of the `whoami` command; a `panic!` when all fail. -/
def whoami (userVar usernameVar whoamiOut : Option String) :
    Except String String :=
  match userVar with
  | some user => .ok user
  | none =>
    match usernameVar with
    | some user => .ok user
    | none =>
      match whoamiOut with
      | some out => .ok (trimStr out)
      | none => .error "Failed to get username"

/-- The `SystemInfo` struct (src/main.rs:8-20). -/
structure SystemInfo where
  hostname : String
  os : String
  kernel : String
  uptime : String
  shell : String
  terminal : Option String
  packages : String
  cpu : String
  gpu : String
  gpu_driver : String
  memory : String × String
deriving DecidableEq

/-- One identifier per Field Probe of the report. -/
inductive ProbeId
  | hostname
  | os
  | kernel
  | uptime
  | shell
  | terminal
  | packages
  | cpu
  | gpu
  | memory
deriving DecidableEq

/-- Model of `get_system_info` (src/main.rs:30-44) instrumented with the
sequence of Field Probe invocations, in the evaluation order of the struct
literal. The `gpu` and `gpu_driver` fields each evaluate a separate
`get_gpu_info()` call; a probe after a panicking one is never invoked. -/
def get_system_info_traced (env : Env) :
    Except String SystemInfo × List ProbeId :=
  let hostname := get_hostname env.etcHostname
  let t := [ProbeId.hostname]
  let os := get_os_info env.osRelease
  let t := t ++ [ProbeId.os]
  let kernelR := get_kernel_version env.unameROut
  let t := t ++ [ProbeId.kernel]
  match kernelR with
  | .error e => (.error e, t)
  | .ok kernel =>
    let uptimeR := get_uptime_checked env.procUptime env.parseSecs
    let t := t ++ [ProbeId.uptime]
    match uptimeR with
    | .error e => (.error e, t)
    | .ok uptime =>
      let shell := get_shell env.shellVar
      let t := t ++ [ProbeId.shell]
      let terminal := get_terminal env.termVar
      let t := t ++ [ProbeId.terminal]
      let packages := get_package_count env.dpkgOut env.pacmanOut env.rpmOut
      let t := t ++ [ProbeId.packages]
      let cpu := get_cpu_info env.procCpuinfo
      let t := t ++ [ProbeId.cpu]
      let gpuCall1 := get_gpu_info env
      let t := t ++ [ProbeId.gpu]
      let gpuCall2 := get_gpu_info env
      let t := t ++ [ProbeId.gpu]
      let memoryR := get_memory_info env.procMeminfo
      let t := t ++ [ProbeId.memory]
      match memoryR with
      | .error e => (.error e, t)
      | .ok memory =>
        (.ok { hostname := hostname, os := os, kernel := kernel,
               uptime := uptime, shell := shell, terminal := terminal,
               packages := packages, cpu := cpu, gpu := gpuCall1.1,
               gpu_driver := gpuCall2.2, memory := memory }, t)

/-- Model of `get_system_info`'s value (the assembled report or the panic). -/
def get_system_info (env : Env) : Except String SystemInfo :=
  (get_system_info_traced env).1

/-- The hard-coded fallback logo of `display_info` (src/main.rs:365-376). -/
def fallbackLogo : List String :=
  ["      /\\      ",
   "     /  \\     ",
   "    /\\   \\    ",
   "   /      \\   ",
   "  /   ,,   \\  ",
   " /   |  |   \\ ",
   "/_-\x27\x27    \x27\x27-_\\",
   "             "]

/-- The line splitting of `read_logo_file` (src/main.rs:468-486): split at
newlines, keeping interior empty lines; the final piece is kept only when
non-empty. -/
def logoLinesOf (content : String) : List String :=
  let parts := (splitNL content.data []).map String.mk
  match parts.getLast? with
  | some last => if last.data.isEmpty then parts.dropLast else parts
  | none => parts

/-- The logo block used by `display_info` (src/main.rs:364-376): the logo
file's lines when readable, else the fallback logo. -/
def read_logo (logoFile : Option String) : List String :=
  match logoFile with
  | some content => logoLinesOf content
  | none => fallbackLogo

/-- The eleven formatted info lines of `display_info` (src/main.rs:379-391);
`user` is the result of `whoami()`. -/
def infoLines (user : String) (info : SystemInfo) : List String :=
  ["\x1b[1;36m" ++ user ++ "@" ++ info.hostname ++ "\x1b[0m",
   "\x1b[1;32mOS:\x1b[0m " ++ info.os,
   "\x1b[1;32mKernel:\x1b[0m " ++ info.kernel,
   "\x1b[1;32mUptime:\x1b[0m " ++ info.uptime,
   "\x1b[1;32mShell:\x1b[0m " ++ info.shell,
   "\x1b[1;32mTerminal:\x1b[0m " ++ info.terminal.getD "Unknown",
   "\x1b[1;32mPackages:\x1b[0m " ++ info.packages,
   "\x1b[1;32mCPU:\x1b[0m " ++ info.cpu,
   "\x1b[1;32mGPU:\x1b[0m " ++ info.gpu,
   "\x1b[1;32mGPU Driver:\x1b[0m " ++ info.gpu_driver,
   "\x1b[1;32mMemory:\x1b[0m " ++ info.memory.1 ++ " / " ++ info.memory.2]

/-- `max_logo_len` (src/main.rs:397): the maximum visible width over the logo
lines (`.max().unwrap_or(0)`; over `Nat` the fold from 0 is that maximum). -/
def maxLogoLen (logo : List String) : Nat :=
  (logo.map visible_length).foldl max 0

/-- The row loop of `display_info` (src/main.rs:401-410): one output row per
index below `max(logo.len(), info_lines.len())`: the logo line or `""`, then
`max_logo_len - visible_len + 4` spaces, then the info line or `""`. -/
def displayRows (logo infoL : List String) : List String :=
  (List.range (max logo.length infoL.length)).map (fun i =>
    let logoLine := logo.getD i ""
    let infoLine := infoL.getD i ""
    let spaces :=
      String.mk (List.replicate (maxLogoLen logo - visible_length logoLine + 4) ' ')
    logoLine ++ spaces ++ infoLine)

/-- Model of `main` (src/main.rs:22-28): assemble the report, then render it;
the `Except` carries the `panic!`s (`uname`, `whoami`) and the checked-mode
arithmetic underflow. The value is the list of printed rows. -/
def runMain (env : Env) : Except String (List String) := do
  let info ← get_system_info env
  let user ← whoami env.userVar env.usernameVar env.whoamiOut
  pure (displayRows (read_logo env.logoFile) (infoLines user info))

/-- Whether the `u64` subtraction in the memory probe underflows on this
`/proc/meminfo` content. -/
def memUnderflows (content : Option String) : Bool :=
  (memAccum content).1 < (memAccum content).2

/-- Whether the uptime probe panics on this `/proc/uptime` content under
this parse function: the first whitespace token parses as an `f64` outside
`Duration::from_secs_f64`'s domain (the `some (.error _)` outcome). -/
def uptimePanics (content : Option String)
    (parseSecsF : String → Option (Except String Nat)) : Bool :=
  match content with
  | some uptimeStr =>
    match (splitWhitespace uptimeStr).head? with
    | some secsStr =>
      match parseSecsF secsStr with
      | some (.error _) => true
      | _ => false
    | none => false
  | none => false

/-- An environment in which every read and every command fails, both
username variables are unset and no kernel module directory exists. -/
def emptyEnv : Env where
  etcHostname := none
  osRelease := none
  unameROut := none
  procUptime := none
  parseSecs := fun _ => none
  shellVar := none
  termVar := none
  dpkgOut := none
  pacmanOut := none
  rpmOut := none
  procCpuinfo := none
  lspciOut := none
  nvidiaSmiNameOut := none
  nvidiaSmiDriverOut := none
  lshwOut := none
  modinfoNvidiaOut := none
  modinfoAmdgpuOut := none
  modinfoRadeonOut := none
  modinfoI915Out := none
  glxinfoOut := none
  sysModuleAmdgpu := false
  sysModuleRadeon := false
  sysModuleI915 := false
  procMeminfo := none
  userVar := none
  usernameVar := none
  whoamiOut := none
  logoFile := none

/-- An environment like `emptyEnv` but with `uname -r` invocable, `USER`
set, and a `/proc/meminfo` whose `MemAvailable` exceeds its (absent, hence
zero) `MemTotal`. -/
def underflowEnv : Env :=
  { emptyEnv with
    unameROut := some "6.1.0"
    userVar := some "fumo"
    procMeminfo := some "MemAvailable: 2000000 kB\n" }

lemma startsWith_total_not_avail (l : String) :
    strStartsWith l "MemTotal:" = true → strStartsWith l "MemAvailable:" = false := by
  intro h
  by_contra hA
  have h1 : "MemTotal:".data <+: l.data := by
    simpa [strStartsWith, List.isPrefixOf_iff_prefix] using h
  have h2 : "MemAvailable:".data <+: l.data := by
    have : strStartsWith l "MemAvailable:" = true := by
      simpa using hA
    simpa [strStartsWith, List.isPrefixOf_iff_prefix] using this
  rcases List.prefix_or_prefix_of_prefix h1 h2 with h3 | h3
  · exact absurd h3 (by decide)
  · exact absurd h3 (by decide)

lemma memLineStep_eq (acc : Nat × Nat) (l : String) :
    memLineStep acc l =
      ((memLineVal "MemTotal:" l).getD acc.1,
       (memLineVal "MemAvailable:" l).getD acc.2) := by
  by_cases hT : strStartsWith l "MemTotal:"
  · have hA := startsWith_total_not_avail l hT
    cases hv : (splitWhitespace l)[1]? with
    | none => simp [memLineStep, memLineVal, hT, hA, hv]
    | some value =>
      cases hk : parseU64 value with
      | none => simp [memLineStep, memLineVal, hT, hA, hv, hk]
      | some kbytes => simp [memLineStep, memLineVal, hT, hA, hv, hk]
  · by_cases hA : strStartsWith l "MemAvailable:"
    · cases hv : (splitWhitespace l)[1]? with
      | none => simp [memLineStep, memLineVal, hT, hA, hv]
      | some value =>
        cases hk : parseU64 value with
        | none => simp [memLineStep, memLineVal, hT, hA, hv, hk]
        | some kbytes => simp [memLineStep, memLineVal, hT, hA, hv, hk]
    · simp [memLineStep, memLineVal, hT, hA]

lemma memFoldl_eq (lines : List String) (t a : Nat) :
    lines.foldl memLineStep (t, a) =
      ((memFieldLast "MemTotal:" lines).getD t,
       (memFieldLast "MemAvailable:" lines).getD a) := by
  induction lines generalizing t a with
  | nil => simp [memFieldLast]
  | cons l ls ih =>
    rw [List.foldl_cons, memLineStep_eq, ih]
    congr 1
    · cases h : memFieldLast "MemTotal:" ls <;> simp [memFieldLast, h]
    · cases h : memFieldLast "MemAvailable:" ls <;> simp [memFieldLast, h]

/-- C3: the formatted uptime string follows the day/hour/minute decomposition
with `days = secs / 86400`, `hours = secs % 86400 / 3600`,
`mins = secs % 3600 / 60`, choosing the `"{d}d {h}h {m}m"`, `"{h}h {m}m"` or
`"{m}m"` shape as days/hours reach 1; the three example inputs format as
stated; and any read or parse failure yields `"Unknown"`. -/
theorem C3_uptime_format :
    (∀ secs : Nat, format_uptime secs =
      (if 1 ≤ secs / 86400 then
        toString (secs / 86400) ++ "d " ++ toString (secs % 86400 / 3600) ++
          "h " ++ toString (secs % 3600 / 60) ++ "m"
      else if 1 ≤ secs % 86400 / 3600 then
        toString (secs % 86400 / 3600) ++ "h " ++ toString (secs % 3600 / 60) ++ "m"
      else toString (secs % 3600 / 60) ++ "m")) ∧
    format_uptime 90000 = "1d 1h 0m" ∧
    format_uptime 3661 = "1h 1m" ∧
    format_uptime 59 = "0m" ∧
    (∀ parseSecs, get_uptime none parseSecs = "Unknown") ∧
    (∀ content parseSecs, (splitWhitespace content).head? = none →
      get_uptime (some content) parseSecs = "Unknown") ∧
    (∀ content parseSecs tok, (splitWhitespace content).head? = some tok →
      parseSecs tok = none → get_uptime (some content) parseSecs = "Unknown") ∧
    (∀ content parseSecs tok secs, (splitWhitespace content).head? = some tok →
      parseSecs tok = some secs →
      get_uptime (some content) parseSecs = format_uptime secs) := by
  refine ⟨fun secs => rfl, by decide, by decide, by decide, fun _ => rfl,
    ?_, ?_, ?_⟩
  · intro content parseSecs h
    simp [get_uptime, h]
  · intro content parseSecs tok h hp
    simp [get_uptime, h, hp]
  · intro content parseSecs tok secs h hp
    simp [get_uptime, h, hp]

theorem C3_uptime_format_witness :
    (splitWhitespace "90000.50 432000.00").head? = some "90000.50" ∧
    (fun s => if s = "90000.50" then some 90000 else none) "90000.50" =
      some 90000 ∧
    get_uptime (some "90000.50 432000.00")
      (fun s => if s = "90000.50" then some 90000 else none) = "1d 1h 0m" := by
  refine ⟨by decide, by decide, ?_⟩
  have h := C3_uptime_format.2.2.2.2.2.2.2 "90000.50 432000.00"
    (fun s => if s = "90000.50" then some 90000 else none) "90000.50" 90000
    (by decide) (by decide)
  exact h.trans (by decide)

/-- C4: whenever `/proc/meminfo` has parsable `MemTotal` and `MemAvailable`
kibibyte values `t` and `a` with `a ≤ t`, the memory probe returns
`used = t - a` and `total = t`, each formatted by `format_memory_size`
(divide by 1024 to mebibytes, and once more to gibibytes past 1024, with
two-decimal fixed-point output). -/
theorem C4_memory_values (content : String) (t a : Nat)
    (hT : memFieldLast "MemTotal:" (rustLines content) = some t)
    (hA : memFieldLast "MemAvailable:" (rustLines content) = some a)
    (hle : a ≤ t) :
    get_memory_info (some content) =
      .ok (format_memory_size (t - a), format_memory_size t) := by
  have hacc : memAccum (some content) = (t, a) := by
    have h := memFoldl_eq (rustLines content) 0 0
    rw [hT, hA] at h
    simpa [memAccum] using h
  simp [get_memory_info, hacc, hle]

theorem C4_memory_values_witness :
    memFieldLast "MemTotal:"
      (rustLines "MemTotal: 8000000 kB\nMemAvailable: 2000000 kB\n") =
        some 8000000 ∧
    memFieldLast "MemAvailable:"
      (rustLines "MemTotal: 8000000 kB\nMemAvailable: 2000000 kB\n") =
        some 2000000 ∧
    2000000 ≤ 8000000 ∧
    get_memory_info (some "MemTotal: 8000000 kB\nMemAvailable: 2000000 kB\n") =
      .ok ("5.72 GB", "7.63 GB") := by
  refine ⟨by decide, by decide, by decide, ?_⟩
  have h := C4_memory_values "MemTotal: 8000000 kB\nMemAvailable: 2000000 kB\n"
    8000000 2000000 (by decide) (by decide) (by decide)
  exact h.trans (by rfl)

/-- C1: the claim that the memory probe never aborts fails on the code: a
`/proc/meminfo` with no parsable `MemTotal` but a positive `MemAvailable`
leaves `total = 0 < available`, and `total - available` underflows `u64`
(a panic under overflow checks; a wrap to a huge value in release builds),
instead of the graceful placeholder behaviour the spec describes. -/
theorem C1_memory_underflow :
    get_memory_info (some "MemAvailable: 2000000 kB\n") =
      .error "attempt to subtract with overflow" := by
  rfl

/-- C2 counterexample: on a concrete environment where report construction
completes, the GPU probe is invoked twice during the construction of the
single `SystemInfo` value, refuting "the GPU probe runs exactly once". -/
theorem C2_gpu_probe_invoked_twice :
    (get_system_info_traced { emptyEnv with unameROut := some "6.1.0" }).2.count
      ProbeId.gpu = 2 := by
  decide

/-- C2 amended: whenever report construction completes, every Field Probe is
invoked exactly once, except the GPU probe, which is invoked exactly twice
(once for the `gpu` field and once for `gpu_driver`). -/
theorem C2_probe_trace (env : Env)
    (h : (get_system_info env).isOk = true) :
    (get_system_info_traced env).2 =
      [ProbeId.hostname, ProbeId.os, ProbeId.kernel, ProbeId.uptime,
       ProbeId.shell, ProbeId.terminal, ProbeId.packages, ProbeId.cpu,
       ProbeId.gpu, ProbeId.gpu, ProbeId.memory] ∧
    (∀ p : ProbeId, (get_system_info_traced env).2.count p =
      if p = ProbeId.gpu then 2 else 1) := by
  rcases hk : get_kernel_version env.unameROut with e | kernel
  · exfalso
    simp [get_system_info, get_system_info_traced, hk, Except.isOk,
      Except.toBool] at h
  · rcases hup : get_uptime_checked env.procUptime env.parseSecs with e | u
    · exfalso
      simp [get_system_info, get_system_info_traced, hk, hup, Except.isOk,
        Except.toBool] at h
    · rcases hm : get_memory_info env.procMeminfo with e | m
      · exfalso
        simp [get_system_info, get_system_info_traced, hk, hup, hm,
          Except.isOk, Except.toBool] at h
      · have ht : (get_system_info_traced env).2 =
            [ProbeId.hostname, ProbeId.os, ProbeId.kernel, ProbeId.uptime,
             ProbeId.shell, ProbeId.terminal, ProbeId.packages, ProbeId.cpu,
             ProbeId.gpu, ProbeId.gpu, ProbeId.memory] := by
          simp [get_system_info_traced, hk, hup, hm]
        refine ⟨ht, fun p => ?_⟩
        rw [ht]
        cases p <;> decide

theorem C2_probe_trace_witness :
    (get_system_info { emptyEnv with unameROut := some "6.1.0" }).isOk = true ∧
    (get_system_info_traced { emptyEnv with unameROut := some "6.1.0" }).2.count
      ProbeId.memory = 1 :=
  ⟨by decide,
    ((C2_probe_trace { emptyEnv with unameROut := some "6.1.0" }
      (by decide)).2 ProbeId.memory).trans (by decide)⟩

lemma foldl_max_le_init (l : List Nat) (init : Nat) : init ≤ l.foldl max init := by
  induction l generalizing init with
  | nil => exact Nat.le_refl _
  | cons a t ih => exact Nat.le_trans (Nat.le_max_left init a) (ih (max init a))

lemma mem_le_foldl_max {x : Nat} {l : List Nat} (h : x ∈ l) (init : Nat) :
    x ≤ l.foldl max init := by
  induction l generalizing init with
  | nil => cases h
  | cons a t ih =>
    rcases List.mem_cons.mp h with rfl | h2
    · exact Nat.le_trans (Nat.le_max_right init x) (foldl_max_le_init t _)
    · exact ih h2 _

/-- C10: the layout's padding subtraction never underflows: the visible width
of every row's logo cell (the logo line at that index, or the empty string
past the logo's end) is at most `maxLogoLen`, so
`max_logo_len - visible_logo_len` is a well-defined `usize` difference and
the rendering loop cannot panic. -/
theorem C10_padding_no_underflow (logo : List String) (i : Nat) :
    visible_length (logo.getD i "") ≤ maxLogoLen logo := by
  by_cases hi : i < logo.length
  · have hmem : logo.getD i "" ∈ logo := by
      rw [List.getD_eq_getElem logo "" hi]
      exact List.getElem_mem hi
    exact mem_le_foldl_max (List.mem_map_of_mem visible_length hmem) 0
  · have hnone : logo[i]? = none := List.getElem?_eq_none (Nat.le_of_not_lt hi)
    have : logo.getD i "" = "" := by
      rw [List.getD_eq_getElem?_getD, hnone]
      rfl
    rw [this]
    exact Nat.zero_le _

/-- C6: the two-column layout emits exactly `max(logoLineCount,
infoLineCount)` rows, and row `i` is the logo line at `i` (or `""`), then
`maxLogoWidth - visibleWidth(logoCell) + 4` spaces, then the info line at `i`
(or `""`). -/
theorem C6_layout (logo infoL : List String) (hne : logo ≠ []) :
    (displayRows logo infoL).length = max logo.length infoL.length ∧
    ∀ i : Nat, i < max logo.length infoL.length →
      (displayRows logo infoL).getD i "" =
        logo.getD i "" ++
          String.mk (List.replicate
            (maxLogoLen logo - visible_length (logo.getD i "") + 4) ' ') ++
          infoL.getD i "" := by
  refine ⟨by simp [displayRows], fun i hi => ?_⟩
  simp [displayRows, List.getD_eq_getElem?_getD, List.getElem?_map,
    List.getElem?_range hi]

theorem C6_layout_witness :
    (["abcde", "xyz"] : List String) ≠ [] ∧
    (displayRows ["abcde", "xyz"] ["i1", "i2", "i3"]).length = 3 ∧
    displayRows ["abcde", "xyz"] ["i1", "i2", "i3"] =
      ["abcde    i1", "xyz      i2", "         i3"] := by
  refine ⟨by decide, ?_, by decide⟩
  exact ((C6_layout ["abcde", "xyz"] ["i1", "i2", "i3"] (by decide)).1).trans
    (by decide)

lemma count_label_ne_unknown (n : Nat) (label : String)
    (hlast : label.data.getLast? = some ')') :
    toString n ++ (" " ++ label) ≠ "Unknown" := by
  intro h
  have hd := congrArg (fun s : String => s.data.getLast?) h
  simp only [String.data_append, List.getLast?_append, hlast, Option.or_some]
    at hd
  exact absurd hd (by decide)

/-- C7: the package-count probe tries `dpkg --get-selections`, `pacman -Q`,
`rpm -qa` in that order; the first invocable command yields
`"{N} ({label})"` with `N` its stdout line count regardless of exit status,
and `"Unknown"` results exactly when all three fail to invoke. -/
theorem C7_package_count (dpkgOut pacmanOut rpmOut : Option String) :
    (∀ out, dpkgOut = some out →
      get_package_count dpkgOut pacmanOut rpmOut =
        toString (rustLinesCount out) ++ " (apt)") ∧
    (∀ out, dpkgOut = none → pacmanOut = some out →
      get_package_count dpkgOut pacmanOut rpmOut =
        toString (rustLinesCount out) ++ " (pacman)") ∧
    (∀ out, dpkgOut = none → pacmanOut = none → rpmOut = some out →
      get_package_count dpkgOut pacmanOut rpmOut =
        toString (rustLinesCount out) ++ " (rpm)") ∧
    (get_package_count dpkgOut pacmanOut rpmOut = "Unknown" ↔
      dpkgOut = none ∧ pacmanOut = none ∧ rpmOut = none) := by
  refine ⟨fun out h => by simp [get_package_count, h],
    fun out h1 h2 => by simp [get_package_count, h1, h2],
    fun out h1 h2 h3 => by simp [get_package_count, h1, h2, h3], ?_⟩
  constructor
  · intro h
    rcases h1 : dpkgOut with _ | o1
    · rcases h2 : pacmanOut with _ | o2
      · rcases h3 : rpmOut with _ | o3
        · exact ⟨rfl, rfl, rfl⟩
        · rw [h1, h2, h3] at h
          exact absurd h (count_label_ne_unknown _ "(rpm)" (by decide))
      · rw [h1, h2] at h
        exact absurd h (count_label_ne_unknown _ "(pacman)" (by decide))
    · rw [h1] at h
      exact absurd h (count_label_ne_unknown _ "(apt)" (by decide))
  · rintro ⟨h1, h2, h3⟩
    simp [get_package_count, h1, h2, h3]

theorem C7_package_count_witness :
    (some "a\nb\nc\n" : Option String) = some "a\nb\nc\n" ∧
    get_package_count (some "a\nb\nc\n") none none = "3 (apt)" ∧
    get_package_count none (some "pkg 1.0\n") none = "1 (pacman)" ∧
    get_package_count none none none = "Unknown" :=
  ⟨rfl,
    ((C7_package_count (some "a\nb\nc\n") none none).1 "a\nb\nc\n" rfl).trans
      (by decide),
    ((C7_package_count none (some "pkg 1.0\n") none).2.1 "pkg 1.0\n" rfl
      rfl).trans (by decide),
    (C7_package_count none none none).2.2.2.mpr ⟨rfl, rfl, rfl⟩⟩

lemma whoami_isOk_false_iff (u1 u2 u3 : Option String) :
    (whoami u1 u2 u3).isOk = false ↔ u1 = none ∧ u2 = none ∧ u3 = none := by
  rcases u1 with _ | a
  · rcases u2 with _ | b
    · rcases u3 with _ | c
      · simp [whoami, Except.isOk, Except.toBool]
      · simp [whoami, Except.isOk, Except.toBool]
    · simp [whoami, Except.isOk, Except.toBool]
  · simp [whoami, Except.isOk, Except.toBool]

lemma get_memory_info_isOk_false_iff (c : Option String) :
    (get_memory_info c).isOk = false ↔ memUnderflows c = true := by
  by_cases h : (memAccum c).2 ≤ (memAccum c).1
  · simp [get_memory_info, h, Except.isOk, Except.toBool, memUnderflows,
      Nat.not_lt.mpr h]
  · simp [get_memory_info, h, Except.isOk, Except.toBool, memUnderflows,
      Nat.lt_of_not_le h]

lemma get_uptime_checked_total (c : Option String)
    (p : String → Option Nat) :
    get_uptime_checked c (fun s => (p s).map Except.ok) =
      .ok (get_uptime c p) := by
  rcases c with _ | s
  · rfl
  · rcases h : (splitWhitespace s).head? with _ | tok
    · simp [get_uptime_checked, get_uptime, h]
    · rcases hp : p tok with _ | v
      · simp [get_uptime_checked, get_uptime, h, hp]
      · simp [get_uptime_checked, get_uptime, h, hp]

lemma get_uptime_checked_isOk_false_iff (c : Option String)
    (p : String → Option (Except String Nat)) :
    (get_uptime_checked c p).isOk = false ↔ uptimePanics c p = true := by
  rcases c with _ | s
  · simp [get_uptime_checked, uptimePanics, Except.isOk, Except.toBool]
  · rcases h : (splitWhitespace s).head? with _ | tok
    · simp [get_uptime_checked, uptimePanics, h, Except.isOk, Except.toBool]
    · rcases hp : p tok with _ | r
      · simp [get_uptime_checked, uptimePanics, h, hp, Except.isOk,
          Except.toBool]
      · rcases r with e | v
        · simp [get_uptime_checked, uptimePanics, h, hp, Except.isOk,
            Except.toBool]
        · simp [get_uptime_checked, uptimePanics, h, hp, Except.isOk,
            Except.toBool]

lemma get_system_info_isOk_false_iff (env : Env) :
    (get_system_info env).isOk = false ↔
      env.unameROut = none ∨
        uptimePanics env.procUptime env.parseSecs = true ∨
        memUnderflows env.procMeminfo = true := by
  rcases hu : env.unameROut with _ | k
  · simp [get_system_info, get_system_info_traced, get_kernel_version, hu,
      Except.isOk, Except.toBool]
  · rcases hup : get_uptime_checked env.procUptime env.parseSecs with e | u
    · have hpan : uptimePanics env.procUptime env.parseSecs = true :=
        (get_uptime_checked_isOk_false_iff _ _).mp
          (by simp [hup, Except.isOk, Except.toBool])
      simp [get_system_info, get_system_info_traced, get_kernel_version, hu,
        hup, Except.isOk, Except.toBool, hpan]
    · have hpan : uptimePanics env.procUptime env.parseSecs = false := by
        rcases hb : uptimePanics env.procUptime env.parseSecs
        · rfl
        · exfalso
          have := (get_uptime_checked_isOk_false_iff _ _).mpr hb
          simp [hup, Except.isOk, Except.toBool] at this
      rcases hm : get_memory_info env.procMeminfo with e | m
      · have hunder : memUnderflows env.procMeminfo = true :=
          (get_memory_info_isOk_false_iff env.procMeminfo).mp
            (by simp [hm, Except.isOk, Except.toBool])
        simp [get_system_info, get_system_info_traced, get_kernel_version,
          hu, hup, hm, Except.isOk, Except.toBool, hpan, hunder]
      · have hunder : memUnderflows env.procMeminfo = false := by
          rcases hb : memUnderflows env.procMeminfo
          · rfl
          · exfalso
            have := (get_memory_info_isOk_false_iff env.procMeminfo).mpr hb
            simp [hm, Except.isOk, Except.toBool] at this
        simp [get_system_info, get_system_info_traced, get_kernel_version,
          hu, hup, hm, Except.isOk, Except.toBool, hpan, hunder]

lemma runMain_isOk (env : Env) :
    (runMain env).isOk = ((get_system_info env).isOk &&
      (whoami env.userVar env.usernameVar env.whoamiOut).isOk) := by
  rcases hg : get_system_info env with e | info
  · simp [runMain, hg, Except.isOk, Except.toBool, Bind.bind, Except.bind]
  · rcases hw : whoami env.userVar env.usernameVar env.whoamiOut with e | u
    · simp [runMain, hg, hw, Except.isOk, Except.toBool, Bind.bind,
        Except.bind]
    · simp [runMain, hg, hw, Except.isOk, Except.toBool, Bind.bind,
        Except.bind, Pure.pure, Except.pure]

/-- C8 counterexample: an environment where `uname -r` is invocable and the
username is determined by `USER`, yet the run aborts (under the checked
arithmetic of debug builds): the memory-subtraction underflow is an abort
situation beyond the two the claim lists. -/
theorem C8_third_abort_situation :
    underflowEnv.unameROut = some "6.1.0" ∧
    underflowEnv.userVar = some "fumo" ∧
    runMain underflowEnv = .error "attempt to subtract with overflow" :=
  ⟨rfl, rfl, rfl⟩

/-- C8 amended: the process aborts in exactly four situations: `uname -r`
cannot be invoked; the first `/proc/uptime` token parses as an `f64` outside
`Duration::from_secs_f64`'s domain (negative, non-finite or overflowing
seconds — a panic in every build profile); the parsed `MemAvailable` exceeds
the parsed `MemTotal` (underflow, under checked arithmetic); or the username
cannot be determined (`USER` and `USERNAME` unset and `whoami` not
invocable). Every other read, invocation or parse failure leaves the run
completing normally. -/
theorem C8_abort_conditions (env : Env) :
    (runMain env).isOk = false ↔
      env.unameROut = none ∨
        uptimePanics env.procUptime env.parseSecs = true ∨
        memUnderflows env.procMeminfo = true ∨
        (env.userVar = none ∧ env.usernameVar = none ∧
          env.whoamiOut = none) := by
  rw [runMain_isOk, Bool.and_eq_false_iff, get_system_info_isOk_false_iff,
    whoami_isOk_false_iff]
  tauto

/-- C9: the Report Assembler is a deterministic function of its external
inputs: two runs over unchanged file contents, environment variables and
command outputs produce identical `SystemInfo` reports (and identical
rendered output). -/
theorem C9_deterministic (e1 e2 : Env) (h : e1 = e2) :
    get_system_info e1 = get_system_info e2 ∧ runMain e1 = runMain e2 := by
  rw [h]
  exact ⟨rfl, rfl⟩

theorem C9_deterministic_witness :
    ({ emptyEnv with unameROut := some "6.1.0" } : Env) =
      { emptyEnv with unameROut := some "6.1.0" } ∧
    get_system_info { emptyEnv with unameROut := some "6.1.0" } =
      get_system_info { emptyEnv with unameROut := some "6.1.0" } :=
  ⟨rfl, (C9_deterministic _ _ rfl).1⟩

end FumoRfetch
